import Mathlib

/-!
Verification of the core ETL pipeline of the Messi World Cup 2022 app
(`app.py`): the Match Resolver (`find_match_id`), the Event Normalizer
(`build_clean_events`) and the Per-90 Aggregator (`build_per90`),
shallowly embedded as pure Lean functions over explicit record types.
-/

/-! ### Match catalog model (Match Resolver) -/

/-- A `home_team` / `away_team` cell of the match catalog, as `find_match_id`
sees it: either a dict whose `home_team_name` / `away_team_name` key holds an
optional string, or some non-dict value (for which `isinstance(x, dict)` is
false). -/
inductive TeamField where
  | dict (name : Option String)
  | nonDict
deriving DecidableEq, Repr

/-- One row of `df_matches`: a match identifier plus the two team cells. -/
structure MatchRow where
  match_id : Int
  home_team : TeamField
  away_team : TeamField
deriving DecidableEq, Repr

/-- The per-cell test used in `find_match_id`:
`isinstance(x, dict) and x.get(key) == team`. -/
def fieldIs (tf : TeamField) (team : String) : Bool :=
  match tf with
  | .dict n => n == some team
  | .nonDict => false

/-- The row predicate of `find_match_id`: team1 at home and team2 away, or
team2 at home and team1 away. -/
def rowMatches (r : MatchRow) (team1 team2 : String) : Bool :=
  (fieldIs r.home_team team1 && fieldIs r.away_team team2) ||
  (fieldIs r.home_team team2 && fieldIs r.away_team team1)

/-- The resolver `find_match_id`: filter the catalog by `rowMatches` and return the first
row's `match_id`; `none` models the `st.error` + `st.stop` path (NotFoundError)
taken when the filtered frame is empty. -/
def find_match_id (df_matches : List MatchRow) (team1 team2 : String) :
    Option Int :=
  ((df_matches.filter (fun r => rowMatches r team1 team2)).head?).map
    (fun r => r.match_id)

/-! ### The example catalog used by the spec's resolver scenario -/

def exampleCatalog : List MatchRow :=
  [ { match_id := 1, home_team := .dict (some "Argentina"),
      away_team := .dict (some "Saudi Arabia") },
    { match_id := 2, home_team := .dict (some "Mexico"),
      away_team := .dict (some "Argentina") } ]

/-! ### Raw event model (Event Normalizer, `build_clean_events`) -/

/-- The nested `player` object of a raw event (`e["player"]`), with its
optional `id` and `name` keys. -/
structure PlayerObj where
  id : Option Int
  name : Option String
deriving DecidableEq, Repr

/-- The nested `pass` object of a raw event (`e["pass"]`): its sub-type name
(`pass.type.name`), `end_location` pair and `shot_assist` flag, each possibly
absent. -/
structure PassObj where
  type_name : Option String
  end_location : Option (Option ℚ × Option ℚ)
  shot_assist : Option Bool
deriving DecidableEq, Repr

/-- The nested `shot` object of a raw event (`e["shot"]`), with its optional
`statsbomb_xg` value. -/
structure ShotObj where
  statsbomb_xg : Option ℚ
deriving DecidableEq, Repr

/-- A raw StatsBomb event record as `build_clean_events` reads it: each field
is `none` when the corresponding JSON key is absent. `type_name` models
`e.get("type", \x7b\x7d).get("name")`. -/
structure RawEvent where
  type_name : Option String
  player : Option PlayerObj
  location : Option (Option ℚ × Option ℚ)
  minute : Option Int
  pass : Option PassObj
  shot : Option ShotObj
deriving DecidableEq, Repr

/-- A row appended to `event_rows` by `build_clean_events`. -/
structure NormalizedEvent where
  match_id : Int
  player_id : Option Int
  player_name : Option String
  event_type : String
  x : Option ℚ
  y : Option ℚ
  end_x : Option ℚ
  end_y : Option ℚ
  shot_assist : Bool
  xg : Option ℚ
  minute : Option Int
deriving DecidableEq, Repr

/-- The set-piece pass sub-types excluded from open play. -/
def OPEN_PLAY_EXCLUDE : List String := ["Corner", "Free Kick", "Throw-in", "Kick Off"]

/-- The empty dict default of `e.get("player", \x7b\x7d)`. -/
def emptyPlayer : PlayerObj := { id := none, name := none }

/-- The empty dict default of `e.get("pass", \x7b\x7d)`. -/
def emptyPass : PassObj :=
  { type_name := none, end_location := none, shot_assist := none }

/-- The empty dict default of `e.get("shot", \x7b\x7d)`. -/
def emptyShot : ShotObj := { statsbomb_xg := none }

/-- The set-piece test `p.get("type", \x7b\x7d).get("name") in OPEN_PLAY_EXCLUDE`. -/
def passIsSetPiece (p : PassObj) : Bool :=
  match p.type_name with
  | some n => OPEN_PLAY_EXCLUDE.contains n
  | none => false

/-- The `row` dict built by `build_clean_events` before the per-type
branches: optional raw fields degrade to `none` via the same defaults the
Python `.get` chains use. -/
def baseRow (match_id : Int) (e : RawEvent) (event_type : String) :
    NormalizedEvent :=
  { match_id := match_id
    player_id := (e.player.getD emptyPlayer).id
    player_name := (e.player.getD emptyPlayer).name
    event_type := event_type
    x := (e.location.getD (none, none)).1
    y := (e.location.getD (none, none)).2
    end_x := none
    end_y := none
    shot_assist := false
    xg := none
    minute := e.minute }

/-- The per-event body of `build_clean_events`' inner loop: `none` when the
event is skipped (`continue`), `some row` when a row is appended. -/
def normalizeEvent (match_id : Int) (e : RawEvent) : Option NormalizedEvent :=
  match e.type_name with
  | none => none
  | some event_type =>
    if event_type = "Pass" ∨ event_type = "Shot" then
      if event_type = "Pass" then
        if passIsSetPiece (e.pass.getD emptyPass) then none
        else
          some { baseRow match_id e event_type with
                 end_x :=
                   ((e.pass.getD emptyPass).end_location.getD (none, none)).1
                 end_y :=
                   ((e.pass.getD emptyPass).end_location.getD (none, none)).2
                 shot_assist := (e.pass.getD emptyPass).shot_assist.getD false }
      else if event_type = "Shot" then
        some { baseRow match_id e event_type with
               xg := (e.shot.getD emptyShot).statsbomb_xg }
      else some (baseRow match_id e event_type)
    else none

/-- The normalizer `build_clean_events`: the input pairs each catalog `match_id` with the
parsed contents of its per-match event file `events/\x7bmatch_id\x7d.json`; the
output is the flat `event_rows` list, in per-match, per-event source order. -/
def build_clean_events (input : List (Int × List RawEvent)) :
    List NormalizedEvent :=
  input.flatMap (fun me => me.2.filterMap (normalizeEvent me.1))

/-! ### Concrete raw events and catalogs used as witnesses -/

/-- A raw event of a type other than Pass/Shot. -/
def duelEvent : RawEvent :=
  { type_name := some "Duel", player := some { id := some 3, name := some "B" }
    location := some (some 50, some 40), minute := some 12
    pass := none, shot := none }

/-- A well-formed corner pass: a set-piece that must be discarded. -/
def cornerEvent : RawEvent :=
  { type_name := some "Pass", player := some { id := some 1, name := some "A" }
    location := some (some 85, some 40), minute := some 10
    pass := some { type_name := some "Corner"
                   end_location := some (some 95, some 42)
                   shot_assist := some true }
    shot := none }

/-- A Pass event with every optional field missing. -/
def barePassEvent : RawEvent :=
  { type_name := some "Pass", player := none, location := none
    minute := none, pass := none, shot := none }

/-- A catalog whose first row has a malformed (non-dict) `home_team` cell and
whose second row is well-formed. -/
def malformedCatalog : List MatchRow :=
  [ { match_id := 5, home_team := .nonDict
      away_team := .dict (some "Brazil") },
    { match_id := 7, home_team := .dict (some "France")
      away_team := .dict (some "Croatia") } ]

/-! ### Per-90 Aggregator (`build_per90`) -/

/-- The minute values of player `p`'s events in match `m` that survive
`dropna(subset=["player_id", "minute"])`, in source order: the group of the
`groupby(["match_id", "player_id"])`. -/
def playerMatchMinutes (df : List NormalizedEvent) (m p : Int) : List Int :=
  df.filterMap (fun e =>
    if e.match_id = m ∧ e.player_id = some p then e.minute else none)

/-- The per-(match, player) `minutes_played` column:
`(max - min).clip(lower=1)` over the group's minutes; `none` when the group is
empty (no such row in the `minutes` frame). -/
def matchMinutesPlayed (df : List NormalizedEvent) (m p : Int) : Option Int :=
  match playerMatchMinutes df m p with
  | [] => none
  | h :: t => some (max (t.foldl max h - t.foldl min h) 1)

/-- The distinct match identifiers of the event frame. -/
def matchIds (df : List NormalizedEvent) : List Int :=
  (df.map (fun e => e.match_id)).dedup

/-- The distinct non-null player identifiers occurring with a non-null
minute: the index of `minutes.groupby("player_id")`. -/
def minutesPlayers (df : List NormalizedEvent) : List Int :=
  (df.filterMap (fun e =>
    if e.minute.isSome then e.player_id else none)).dedup

/-- Total `minutes_played` per player: the per-match contributions summed
across matches. -/
def minutes_played (df : List NormalizedEvent) (p : Int) : Int :=
  ((matchIds df).filterMap (fun m => matchMinutesPlayed df m p)).sum

/-- The filter `(df.event_type == "Pass") & (df.x >= 80)`: a null `x` compares false. -/
def isFinalThirdPass (e : NormalizedEvent) : Bool :=
  e.event_type == "Pass" &&
    (match e.x with
     | some v => decide ((80 : ℚ) ≤ v)
     | none => false)

/-- Per-player count of final-third passes. -/
def final_third_passes (df : List NormalizedEvent) (p : Int) : Nat :=
  (df.filter (fun e => e.player_id == some p && isFinalThirdPass e)).length

/-- Per-player count of shot-assist passes. -/
def shot_assists (df : List NormalizedEvent) (p : Int) : Nat :=
  (df.filter (fun e =>
    e.player_id == some p && e.event_type == "Pass" && e.shot_assist)).length

/-- Per-player sum of the non-null `xg` values
(`df[df.xg.notna()].groupby("player_id")["xg"].sum()`). -/
def xgSum (df : List NormalizedEvent) (p : Int) : ℚ :=
  (df.filterMap (fun e =>
    if e.player_id = some p then e.xg else none)).sum

/-- One output row of `build_per90` after the merges, `fillna(0)` and the
per-90 derivations. -/
structure Per90Row where
  player_id : Int
  minutes_played : Int
  final_third_passes : Nat
  shot_assists : Nat
  xg : ℚ
  final_third_passes_per90 : ℚ
  xg_per90 : ℚ
deriving DecidableEq, Repr

/-- The merged, `fillna(0)`-completed row of player `p` with its per-90
derived columns. -/
def per90Row (df : List NormalizedEvent) (p : Int) : Per90Row :=
  { player_id := p
    minutes_played := minutes_played df p
    final_third_passes := final_third_passes df p
    shot_assists := shot_assists df p
    xg := xgSum df p
    final_third_passes_per90 :=
      (final_third_passes df p : ℚ) / (minutes_played df p : ℚ) * 90
    xg_per90 := xgSum df p / (minutes_played df p : ℚ) * 90 }

/-- The aggregator `build_per90`: one row per player of the `minutes` frame that passes the
`minutes_played >= 300` filter. -/
def build_per90 (df : List NormalizedEvent) : List Per90Row :=
  (minutesPlayers df).filterMap (fun p =>
    if 300 ≤ minutes_played df p then some (per90Row df p) else none)

/-! ### Spec-side formulations used to state the aggregator claims -/

/-- The spec's per-(match, player) playing-time proxy: (maximum event minute −
minimum event minute) among the player's events of the match, clamped to a
floor of 1; no value when the player has no minute data in the match. -/
def specMatchMinutes (df : List NormalizedEvent) (m p : Int) : Option Int :=
  match (playerMatchMinutes df m p).max?, (playerMatchMinutes df m p).min? with
  | some hi, some lo => some (max (hi - lo) 1)
  | _, _ => none

/-- The spec's xg aggregate: the sum of the non-null xg values of the
player's Shot events. -/
def shotXg (df : List NormalizedEvent) (p : Int) : ℚ :=
  (df.filterMap (fun e =>
    if e.event_type = "Shot" ∧ e.player_id = some p then e.xg else none)).sum

/-! ### Concrete normalized events and raw inputs used as witnesses -/

/-- A final-third shot-assist pass of player 10 at minute 0 of match 1. -/
def sampleEventA : NormalizedEvent :=
  { match_id := 1, player_id := some 10, player_name := some "P"
    event_type := "Pass", x := some 85, y := some 40
    end_x := some 95, end_y := some 42, shot_assist := true
    xg := none, minute := some 0 }

/-- A shot of player 10 at minute 400 of match 1 (so that the player clears
the 300-minute filter). -/
def sampleEventB : NormalizedEvent :=
  { match_id := 1, player_id := some 10, player_name := some "P"
    event_type := "Shot", x := some 100, y := some 40
    end_x := none, end_y := none, shot_assist := false
    xg := some (1/4), minute := some 400 }

/-- A two-event frame whose single player qualifies for the per-90 output. -/
def sampleDf : List NormalizedEvent := [sampleEventA, sampleEventB]

/-- A frame whose only player has a single event, at minute 5 of match 3. -/
def singleMinuteDf : List NormalizedEvent :=
  [ { match_id := 3, player_id := some 20, player_name := some "Q"
      event_type := "Pass", x := some 50, y := some 40
      end_x := some 60, end_y := some 40, shot_assist := false
      xg := none, minute := some 5 } ]

/-- A raw shot of player 10 at minute 0 with xg 3/10. -/
def rawShotEarly : RawEvent :=
  { type_name := some "Shot", player := some { id := some 10, name := some "P" }
    location := some (some 100, some 40), minute := some 0
    pass := none, shot := some { statsbomb_xg := some (3/10) } }

/-- A raw shot of player 10 at minute 400 with xg 1/5. -/
def rawShotLate : RawEvent :=
  { type_name := some "Shot", player := some { id := some 10, name := some "P" }
    location := some (some 102, some 38), minute := some 400
    pass := none, shot := some { statsbomb_xg := some (1/5) } }

/-- A one-match raw input whose single player qualifies for the per-90
output. -/
def sampleRawInput : List (Int × List RawEvent) := [(1, [rawShotEarly, rawShotLate])]

/-! ### Lemmas about the resolver -/

lemma rowMatches_symm (r : MatchRow) (t1 t2 : String) :
    rowMatches r t1 t2 = rowMatches r t2 t1 := by
  simp [rowMatches, Bool.or_comm]

lemma find_match_id_symm (cat : List MatchRow) (t1 t2 : String) :
    find_match_id cat t1 t2 = find_match_id cat t2 t1 := by
  unfold find_match_id
  congr 2
  apply List.filter_congr
  intro r _
  exact rowMatches_symm r t1 t2

lemma find_match_id_none_iff (cat : List MatchRow) (t1 t2 : String) :
    find_match_id cat t1 t2 = none ↔
      ∀ r ∈ cat, rowMatches r t1 t2 = false := by
  unfold find_match_id
  rw [Option.map_eq_none', List.head?_eq_none_iff, List.filter_eq_nil_iff]
  simp

lemma find_match_id_some (cat : List MatchRow) (t1 t2 : String) (i : Int)
    (h : find_match_id cat t1 t2 = some i) :
    ∃ r ∈ cat, rowMatches r t1 t2 = true ∧ r.match_id = i := by
  unfold find_match_id at h
  rw [Option.map_eq_some'] at h
  obtain ⟨r, hr, hid⟩ := h
  have hmem := List.mem_of_mem_head? hr
  rw [List.mem_filter] at hmem
  exact ⟨r, hmem.1, hmem.2, hid⟩

/-- C1: the Match Resolver is order-insensitive: for every catalog and pair of
team names it returns the same result with the pair in either order; a
returned `match_id` always comes from a catalog row where one name is the home
team and the other the away team; it returns `none` (NotFoundError, aborting
the request) exactly when zero rows match.  On the two-row example catalog,
("Argentina","Mexico") resolves to 2, ("Saudi Arabia","Argentina") resolves to
1, and ("Brazil","Argentina") yields NotFoundError. -/
theorem C1_match_resolver_order_insensitive :
    (∀ (cat : List MatchRow) (t1 t2 : String),
        find_match_id cat t1 t2 = find_match_id cat t2 t1) ∧
    (∀ (cat : List MatchRow) (t1 t2 : String) (i : Int),
        find_match_id cat t1 t2 = some i →
          ∃ r ∈ cat, rowMatches r t1 t2 = true ∧ r.match_id = i) ∧
    (∀ (cat : List MatchRow) (t1 t2 : String),
        find_match_id cat t1 t2 = none ↔
          ∀ r ∈ cat, rowMatches r t1 t2 = false) ∧
    find_match_id exampleCatalog "Argentina" "Mexico" = some 2 ∧
    find_match_id exampleCatalog "Saudi Arabia" "Argentina" = some 1 ∧
    find_match_id exampleCatalog "Brazil" "Argentina" = none := by
  refine ⟨find_match_id_symm, find_match_id_some, find_match_id_none_iff,
    ?_, ?_, ?_⟩ <;> decide

/-- Witness for C1: the order-insensitivity and characterisations applied at a
concrete catalog and inputs. -/
theorem C1_witness :
    find_match_id exampleCatalog "Mexico" "Argentina" =
      find_match_id exampleCatalog "Argentina" "Mexico" ∧
    (∃ r ∈ exampleCatalog,
        rowMatches r "Argentina" "Mexico" = true ∧ r.match_id = 2) := by
  refine ⟨C1_match_resolver_order_insensitive.1 exampleCatalog "Mexico"
    "Argentina", ?_⟩
  exact C1_match_resolver_order_insensitive.2.1 exampleCatalog "Argentina"
    "Mexico" 2 C1_match_resolver_order_insensitive.2.2.2.1

/-! ### Lemmas about the normalizer -/

lemma normalizeEvent_pass_eq (mid : Int) (e : RawEvent)
    (hty : e.type_name = some "Pass")
    (hsp : passIsSetPiece (e.pass.getD emptyPass) = false) :
    normalizeEvent mid e =
      some { baseRow mid e "Pass" with
             end_x := ((e.pass.getD emptyPass).end_location.getD (none, none)).1
             end_y := ((e.pass.getD emptyPass).end_location.getD (none, none)).2
             shot_assist := (e.pass.getD emptyPass).shot_assist.getD false } := by
  simp [normalizeEvent, hty, hsp]

lemma normalizeEvent_pass_sp_eq (mid : Int) (e : RawEvent)
    (hty : e.type_name = some "Pass")
    (hsp : passIsSetPiece (e.pass.getD emptyPass) = true) :
    normalizeEvent mid e = none := by
  simp [normalizeEvent, hty, hsp]

lemma normalizeEvent_shot_eq (mid : Int) (e : RawEvent)
    (hty : e.type_name = some "Shot") :
    normalizeEvent mid e =
      some { baseRow mid e "Shot" with
             xg := (e.shot.getD emptyShot).statsbomb_xg } := by
  simp [normalizeEvent, hty]

lemma normalizeEvent_not_pass_shot (mid : Int) (e : RawEvent)
    (h1 : e.type_name ≠ some "Pass") (h2 : e.type_name ≠ some "Shot") :
    normalizeEvent mid e = none := by
  cases he : e.type_name with
  | none => simp [normalizeEvent, he]
  | some et =>
    have he1 : et ≠ "Pass" := by rintro rfl; exact h1 he
    have he2 : et ≠ "Shot" := by rintro rfl; exact h2 he
    simp [normalizeEvent, he, he1, he2]

lemma normalizeEvent_event_type (mid : Int) (e : RawEvent)
    (r : NormalizedEvent) (h : normalizeEvent mid e = some r) :
    r.event_type = "Pass" ∨ r.event_type = "Shot" := by
  by_cases h1 : e.type_name = some "Pass"
  · left
    by_cases hsp : passIsSetPiece (e.pass.getD emptyPass) = true
    · rw [normalizeEvent_pass_sp_eq mid e h1 hsp] at h
      exact absurd h (by simp)
    · rw [normalizeEvent_pass_eq mid e h1 (by simpa using hsp)] at h
      have := Option.some.inj h
      rw [← this]
      simp [baseRow]
  · by_cases h2 : e.type_name = some "Shot"
    · right
      rw [normalizeEvent_shot_eq mid e h2] at h
      have := Option.some.inj h
      rw [← this]
      simp [baseRow]
    · rw [normalizeEvent_not_pass_shot mid e h1 h2] at h
      exact absurd h (by simp)

/-- C6: the Event Normalizer excludes every raw event whose declared type name
is neither "Pass" nor "Shot" (its per-event step yields no row), so every
event of the normalized output has event_type ∈ {Pass, Shot}. -/
theorem C6_only_pass_and_shot :
    (∀ (mid : Int) (e : RawEvent),
        e.type_name ≠ some "Pass" → e.type_name ≠ some "Shot" →
          normalizeEvent mid e = none) ∧
    (∀ (input : List (Int × List RawEvent)) (r : NormalizedEvent),
        r ∈ build_clean_events input →
          r.event_type = "Pass" ∨ r.event_type = "Shot") := by
  refine ⟨normalizeEvent_not_pass_shot, ?_⟩
  intro input r hr
  simp only [build_clean_events, List.mem_flatMap, List.mem_filterMap] at hr
  obtain ⟨me, _, e, _, hnorm⟩ := hr
  exact normalizeEvent_event_type me.1 e r hnorm

/-- Witness for C6: a "Duel" event is dropped by the normalizer. -/
theorem C6_witness : normalizeEvent 1 duelEvent = none :=
  C6_only_pass_and_shot.1 1 duelEvent (by decide) (by decide)

/-- C7: a raw Pass event whose pass sub-type name is Corner, Free Kick,
Throw-in or Kick Off is discarded entirely: the per-event step yields no row,
and removing such an event from a match's event list leaves the normalized
output unchanged. -/
theorem C7_set_piece_passes_discarded :
    ∀ (mid : Int) (e : RawEvent) (p : PassObj) (n : String),
      e.type_name = some "Pass" → e.pass = some p → p.type_name = some n →
      (n = "Corner" ∨ n = "Free Kick" ∨ n = "Throw-in" ∨ n = "Kick Off") →
      normalizeEvent mid e = none ∧
        ∀ pre post : List RawEvent,
          (pre ++ e :: post).filterMap (normalizeEvent mid) =
            (pre ++ post).filterMap (normalizeEvent mid) := by
  intro mid e p n hty hp hpn hn
  have hsp : passIsSetPiece (e.pass.getD emptyPass) = true := by
    rw [hp]
    unfold passIsSetPiece
    rw [Option.getD_some, hpn]
    rcases hn with rfl | rfl | rfl | rfl <;> decide
  have hnone : normalizeEvent mid e = none :=
    normalizeEvent_pass_sp_eq mid e hty hsp
  refine ⟨hnone, fun pre post => ?_⟩
  simp [List.filterMap_append, List.filterMap_cons, hnone]

/-- Witness for C7: the concrete corner pass is discarded. -/
theorem C7_witness : normalizeEvent 1 cornerEvent = none :=
  (C7_set_piece_passes_discarded 1 cornerEvent
    { type_name := some "Corner", end_location := some (some 95, some 42)
      shot_assist := some true }
    "Corner" rfl rfl rfl (Or.inl rfl)).1

/-- C8: every raw event the normalizer retains (declared type Pass or Shot,
and not a set-piece pass) yields a row even when optional fields are missing:
an absent player object, location pair, minute, pass end-location,
shot-assist flag or shot xg degrades to null (with shot_assist defaulting to
false) instead of raising an error. -/
theorem C8_missing_fields_degrade_to_null :
    ∀ (mid : Int) (e : RawEvent) (et : String),
      e.type_name = some et → (et = "Pass" ∨ et = "Shot") →
      ¬(et = "Pass" ∧ passIsSetPiece (e.pass.getD emptyPass) = true) →
      (normalizeEvent mid e).isSome = true ∧
      ∀ r : NormalizedEvent, normalizeEvent mid e = some r →
        (e.player = none → r.player_id = none ∧ r.player_name = none) ∧
        (e.location = none → r.x = none ∧ r.y = none) ∧
        (e.minute = none → r.minute = none) ∧
        (et = "Pass" → (e.pass.getD emptyPass).end_location = none →
          r.end_x = none ∧ r.end_y = none) ∧
        (et = "Pass" → (e.pass.getD emptyPass).shot_assist = none →
          r.shot_assist = false) ∧
        (et = "Shot" → (e.shot.getD emptyShot).statsbomb_xg = none →
          r.xg = none) := by
  intro mid e et hty hets hnsp
  rcases hets with rfl | rfl
  · have hsp : passIsSetPiece (e.pass.getD emptyPass) = false := by
      rcases hb : passIsSetPiece (e.pass.getD emptyPass) with _ | _
      · rfl
      · exact absurd ⟨rfl, hb⟩ hnsp
    have hval := normalizeEvent_pass_eq mid e hty hsp
    refine ⟨by rw [hval]; rfl, ?_⟩
    intro r hr
    rw [hval] at hr
    rw [← Option.some.inj hr]
    refine ⟨?_, ?_, ?_, ?_, ?_, ?_⟩
    · intro hpl; simp [baseRow, hpl, emptyPlayer]
    · intro hloc; simp [baseRow, hloc]
    · intro hmin; simp [baseRow, hmin]
    · intro _ hend; simp [hend]
    · intro _ hsa; simp [hsa]
    · intro habs; exact absurd habs (by decide)
  · have hval := normalizeEvent_shot_eq mid e hty
    refine ⟨by rw [hval]; rfl, ?_⟩
    intro r hr
    rw [hval] at hr
    rw [← Option.some.inj hr]
    refine ⟨?_, ?_, ?_, ?_, ?_, ?_⟩
    · intro hpl; simp [baseRow, hpl, emptyPlayer]
    · intro hloc; simp [baseRow, hloc]
    · intro hmin; simp [baseRow, hmin]
    · intro habs; exact absurd habs (by decide)
    · intro habs; exact absurd habs (by decide)
    · intro _ hxg; simp [hxg]

/-- Witness for C8: the bare Pass event with every optional field missing is
still retained. -/
theorem C8_witness : (normalizeEvent 1 barePassEvent).isSome = true :=
  (C8_missing_fields_degrade_to_null 1 barePassEvent "Pass" rfl (Or.inl rfl)
    (by decide)).1

/-- C9: the Event Normalizer is a pure function of its input: two runs on the
same raw input produce identical outputs, and the output is exactly the
per-match normalized lists concatenated in catalog order, preserving
per-match, per-event source order. -/
theorem C9_normalizer_pure :
    ∀ input : List (Int × List RawEvent),
      build_clean_events input = build_clean_events input ∧
      build_clean_events input =
        (input.map (fun me => me.2.filterMap (normalizeEvent me.1))).flatten :=
  fun input => ⟨rfl, List.flatMap_def input _⟩

/-- C10: a catalog row whose home_team or away_team cell is not a dict is
silently treated as non-matching for every queried team pair; a catalog whose
rows are all malformed yields NotFoundError (`none`) rather than an error, and
well-formed rows alongside malformed ones are still resolved normally. -/
theorem C10_malformed_rows_non_matching :
    (∀ (r : MatchRow) (t1 t2 : String),
        r.home_team = .nonDict ∨ r.away_team = .nonDict →
          rowMatches r t1 t2 = false) ∧
    (∀ (cat : List MatchRow) (t1 t2 : String),
        (∀ r ∈ cat, r.home_team = .nonDict ∨ r.away_team = .nonDict) →
          find_match_id cat t1 t2 = none) ∧
    find_match_id malformedCatalog "France" "Croatia" = some 7 := by
  have hrow : ∀ (r : MatchRow) (t1 t2 : String),
      r.home_team = .nonDict ∨ r.away_team = .nonDict →
        rowMatches r t1 t2 = false := by
    intro r t1 t2 h
    rcases h with h | h <;> simp [rowMatches, fieldIs, h]
  refine ⟨hrow, ?_, by decide⟩
  intro cat t1 t2 hall
  exact (find_match_id_none_iff cat t1 t2).mpr
    (fun r hr => hrow r t1 t2 (hall r hr))

/-- Witness for C10: a query that would only match the malformed row yields
NotFoundError. -/
theorem C10_witness :
    find_match_id [⟨5, .nonDict, .dict (some "Brazil")⟩] "x" "Brazil" = none :=
  C10_malformed_rows_non_matching.2.1
    [⟨5, .nonDict, .dict (some "Brazil")⟩] "x" "Brazil" (by decide)

/-! ### Lemmas about the aggregator -/

lemma mem_build_per90 {df : List NormalizedEvent} {r : Per90Row} :
    r ∈ build_per90 df ↔
      ∃ p ∈ minutesPlayers df,
        300 ≤ minutes_played df p ∧ r = per90Row df p := by
  simp only [build_per90, List.mem_filterMap]
  constructor
  · rintro ⟨p, hp, hif⟩
    by_cases h : 300 ≤ minutes_played df p
    · rw [if_pos h] at hif
      exact ⟨p, hp, h, (Option.some.inj hif).symm⟩
    · rw [if_neg h] at hif
      cases hif
  · rintro ⟨p, hp, h, rfl⟩
    exact ⟨p, hp, by rw [if_pos h]⟩

lemma specMatchMinutes_eq (df : List NormalizedEvent) (m p : Int) :
    specMatchMinutes df m p = matchMinutesPlayed df m p := by
  unfold specMatchMinutes matchMinutesPlayed
  cases hl : playerMatchMinutes df m p with
  | nil => rfl
  | cons h t => rfl

lemma foldl_eq_of_const (t : List Int) (v : Int) (f : Int → Int → Int)
    (hf : f v v = v) (ht : ∀ x ∈ t, x = v) : t.foldl f v = v := by
  induction t with
  | nil => rfl
  | cons a t ih =>
    have ha : a = v := ht a (List.mem_cons_self a t)
    rw [List.foldl_cons, ha, hf]
    exact ih (fun x hx => ht x (List.mem_cons_of_mem a hx))

lemma playerMatchMinutes_dropna (df : List NormalizedEvent) (m p : Int) :
    playerMatchMinutes df m p =
      playerMatchMinutes
        (df.filter (fun e => e.player_id.isSome && e.minute.isSome)) m p := by
  unfold playerMatchMinutes
  induction df with
  | nil => rfl
  | cons e t ih =>
    rw [List.filter_cons]
    by_cases hq : (e.player_id.isSome && e.minute.isSome) = true
    · rw [if_pos hq, List.filterMap_cons, List.filterMap_cons]
      cases hf : (if e.match_id = m ∧ e.player_id = some p
          then e.minute else none) with
      | none => exact ih
      | some v => rw [ih]
    · rw [if_neg hq, List.filterMap_cons]
      have hf : (if e.match_id = m ∧ e.player_id = some p
          then e.minute else none) = none := by
        cases hpid : e.player_id with
        | none =>
          rw [if_neg]
          rintro ⟨_, hc⟩
          exact Option.noConfusion hc
        | some pid =>
          have hmin : e.minute = none := by
            cases hm : e.minute with
            | none => rfl
            | some w => exact absurd (by rw [hpid, hm]; rfl) hq
          split_ifs
          · exact hmin
          · rfl
      rw [hf]
      exact ih

/-- C2: each player row of the Per-90 output carries, as total
`minutes_played`, the sum over the frame's matches of (maximum event minute −
minimum event minute) among that player's events in the match, clamped to a
floor of 1 per match; events with a null player_id or minute are excluded from
every per-(match, player) minute group; and a player whose events in a match
all share one minute contributes exactly 1 for that match. -/
theorem C2_minutes_played_formula :
    (∀ (df : List NormalizedEvent) (r : Per90Row), r ∈ build_per90 df →
        r.minutes_played =
          ((matchIds df).filterMap
            (fun m => specMatchMinutes df m r.player_id)).sum) ∧
    (∀ (df : List NormalizedEvent) (m p : Int),
        playerMatchMinutes df m p =
          playerMatchMinutes
            (df.filter (fun e => e.player_id.isSome && e.minute.isSome)) m p) ∧
    (∀ (df : List NormalizedEvent) (m p v : Int),
        playerMatchMinutes df m p ≠ [] →
        (∀ x ∈ playerMatchMinutes df m p, x = v) →
        specMatchMinutes df m p = some 1) := by
  refine ⟨?_, playerMatchMinutes_dropna, ?_⟩
  · intro df r hr
    obtain ⟨p, hp, h300, rfl⟩ := mem_build_per90.mp hr
    simp only [per90Row]
    unfold minutes_played
    congr 1
    apply List.filterMap_congr
    intro m _
    exact (specMatchMinutes_eq df m p).symm
  · intro df m p v hne hall
    rw [specMatchMinutes_eq]
    unfold matchMinutesPlayed
    cases hl : playerMatchMinutes df m p with
    | nil => exact absurd hl hne
    | cons h t =>
      have hh : h = v := hall h (by rw [hl]; exact List.mem_cons_self h t)
      subst hh
      have ht : ∀ x ∈ t, x = h :=
        fun x hx => hall x (by rw [hl]; exact List.mem_cons_of_mem h hx)
      show some (max (t.foldl max h - t.foldl min h) 1) = some 1
      rw [foldl_eq_of_const t h max (max_self h) ht,
        foldl_eq_of_const t h min (min_self h) ht]
      simp

/-- Witness for C2: the single event of `singleMinuteDf`, at minute 5,
contributes exactly 1 minute for its match. -/
theorem C2_witness : specMatchMinutes singleMinuteDf 3 20 = some 1 :=
  C2_minutes_played_formula.2.2 singleMinuteDf 3 20 5 (by decide) (by decide)

lemma normalizeEvent_xg_none (mid : Int) (e : RawEvent)
    (r : NormalizedEvent) (h : normalizeEvent mid e = some r)
    (hns : r.event_type ≠ "Shot") : r.xg = none := by
  by_cases h1 : e.type_name = some "Pass"
  · by_cases hsp : passIsSetPiece (e.pass.getD emptyPass) = true
    · rw [normalizeEvent_pass_sp_eq mid e h1 hsp] at h
      exact absurd h (by simp)
    · rw [normalizeEvent_pass_eq mid e h1 (by simpa using hsp)] at h
      rw [← Option.some.inj h]
      simp [baseRow]
  · by_cases h2 : e.type_name = some "Shot"
    · rw [normalizeEvent_shot_eq mid e h2] at h
      have he : r.event_type = "Shot" := by
        rw [← Option.some.inj h]
        simp [baseRow]
      exact absurd he hns
    · rw [normalizeEvent_not_pass_shot mid e h1 h2] at h
      exact absurd h (by simp)

lemma clean_xg_none (input : List (Int × List RawEvent))
    (e : NormalizedEvent) (he : e ∈ build_clean_events input)
    (hns : e.event_type ≠ "Shot") : e.xg = none := by
  simp only [build_clean_events, List.mem_flatMap, List.mem_filterMap] at he
  obtain ⟨me, _, a, _, hnorm⟩ := he
  exact normalizeEvent_xg_none me.1 a e hnorm hns

lemma xgSum_eq_shotXg (input : List (Int × List RawEvent)) (p : Int) :
    xgSum (build_clean_events input) p =
      shotXg (build_clean_events input) p := by
  unfold xgSum shotXg
  congr 1
  apply List.filterMap_congr
  intro e he
  by_cases hs : e.event_type = "Shot"
  · simp [hs]
  · have hxg : e.xg = none := clean_xg_none input e he hs
    simp [hxg, hs]

/-- C3: for every raw input, every player row of the Per-90 output has, as its
xg aggregate, the sum of the non-null xg values of that player's Shot events
in the normalized frame; non-Shot normalized events carry no xg at all, so
they contribute nothing to the aggregate. -/
theorem C3_xg_from_shots_only :
    (∀ (input : List (Int × List RawEvent)) (e : NormalizedEvent),
        e ∈ build_clean_events input → e.event_type ≠ "Shot" →
          e.xg = none) ∧
    (∀ (input : List (Int × List RawEvent)) (r : Per90Row),
        r ∈ build_per90 (build_clean_events input) →
          r.xg = shotXg (build_clean_events input) r.player_id) := by
  refine ⟨clean_xg_none, ?_⟩
  intro input r hr
  obtain ⟨p, _, _, rfl⟩ := mem_build_per90.mp hr
  simp only [per90Row]
  exact xgSum_eq_shotXg input p

/-- Witness for C3: on the concrete one-match raw input, player 10's xg
aggregate is the sum over that player's shots. -/
theorem C3_witness :
    (per90Row (build_clean_events sampleRawInput) 10).xg =
      shotXg (build_clean_events sampleRawInput)
        (per90Row (build_clean_events sampleRawInput) 10).player_id :=
  C3_xg_from_shots_only.2 sampleRawInput
    (per90Row (build_clean_events sampleRawInput) 10)
    (mem_build_per90.mpr ⟨10, by decide, by decide, rfl⟩)

/-- C4: every player row of the Per-90 output has total minutes_played at
least 300; a player whose computed total falls below 300 is filtered out of
the output. -/
theorem C4_minutes_threshold :
    ∀ (df : List NormalizedEvent) (r : Per90Row),
      r ∈ build_per90 df →
        300 ≤ r.minutes_played ∧ r.minutes_played = minutes_played df r.player_id := by
  intro df r hr
  obtain ⟨p, _, h300, rfl⟩ := mem_build_per90.mp hr
  exact ⟨by simpa [per90Row] using h300, by simp [per90Row]⟩

/-- Witness for C4: the qualifying player of `sampleDf` clears the 300-minute
floor. -/
theorem C4_witness :
    300 ≤ (per90Row sampleDf 10).minutes_played ∧
      (per90Row sampleDf 10).minutes_played =
        minutes_played sampleDf (per90Row sampleDf 10).player_id :=
  C4_minutes_threshold sampleDf (per90Row sampleDf 10)
    (mem_build_per90.mpr ⟨10, by decide, by decide, rfl⟩)

/-- C5: every player row of the Per-90 output satisfies, exactly over the
embedded rationals, final_third_passes_per90 = final_third_passes /
minutes_played × 90 and xg_per90 = xg / minutes_played × 90. -/
theorem C5_per90_derivation :
    ∀ (df : List NormalizedEvent) (r : Per90Row),
      r ∈ build_per90 df →
        r.final_third_passes_per90 =
          (r.final_third_passes : ℚ) / (r.minutes_played : ℚ) * 90 ∧
        r.xg_per90 = r.xg / (r.minutes_played : ℚ) * 90 := by
  intro df r hr
  obtain ⟨p, _, _, rfl⟩ := mem_build_per90.mp hr
  constructor <;> simp [per90Row]

/-- Witness for C5: the per-90 equations hold on the qualifying row of
`sampleDf`. -/
theorem C5_witness :
    (per90Row sampleDf 10).final_third_passes_per90 =
      ((per90Row sampleDf 10).final_third_passes : ℚ) /
        ((per90Row sampleDf 10).minutes_played : ℚ) * 90 ∧
    (per90Row sampleDf 10).xg_per90 =
      (per90Row sampleDf 10).xg /
        ((per90Row sampleDf 10).minutes_played : ℚ) * 90 :=
  C5_per90_derivation sampleDf (per90Row sampleDf 10)
    (mem_build_per90.mpr ⟨10, by decide, by decide, rfl⟩)
